import Mathlib

/-!
Verification of the SkyMentor database provisioning script (`db_setup.py`).

The script is a one-shot, single-connection, auto-commit provisioning tool:
it validates environment configuration, connects, optionally drops the prior
schema, creates enumerated types, tables and indexes, inserts seed rows and
verifies row counts.  We embed the relational state it manipulates as a
`DBState` (created enum types, created tables with their rows, created
indexes), the SQL statements it issues as a `Stmt` datatype, and every
source method as the statement list it executes (or, for control flow, as a
function over `DBState` / process outcomes).  External semantics the script
actually exercises are modelled where its behaviour depends on them:
PostgreSQL's rejection of reserved key words as column identifiers (the
`progression_steps` DDL uses `references` as a column name), the
`RealDictCursor` row representation that `verify_setup` indexes, and the
attribute surface of Python's `hashlib` module.  Wall-clock timestamps and
server-generated uuids are inputs of the model.
-/

namespace SkyDive

/-- A column value carried by an INSERT statement: SQL strings, integers,
booleans and NULL.  Server-computed defaults (uuid, timestamps) are not
materialised; rows store exactly the columns the script supplies. -/
inductive Value where
  | s (v : String)
  | n (v : Int)
  | b (v : Bool)
  | null
deriving DecidableEq

/-- A row as inserted by the script: an association list from column name to
value, in the column order of the INSERT statement. -/
abbrev Row := List (String × Value)

/-- The relational state the script manipulates: created enumerated types
with their label lists, created tables with their rows (in insertion order),
and created index names. -/
structure DBState where
  enums : List (String × List String) := []
  tables : List (String × List Row) := []
  indexes : List String := []
deriving DecidableEq

/-- The empty database: no types, tables or indexes. -/
def DBState.empty : DBState := {}

/-- Whether a table of the given name exists. -/
def DBState.hasTable (s : DBState) (n : String) : Bool :=
  s.tables.any (fun p => p.1 == n)

/-- Whether an enumerated type of the given name exists. -/
def DBState.hasEnum (s : DBState) (n : String) : Bool :=
  s.enums.any (fun p => p.1 == n)

/-- The rows of a table (empty when the table does not exist). -/
def DBState.rows (s : DBState) (n : String) : List Row :=
  match s.tables.find? (fun p => p.1 == n) with
  | some p => p.2
  | none => []

/-- `SELECT COUNT(*)` of a table. -/
def DBState.rowCount (s : DBState) (n : String) : Nat :=
  (s.rows n).length

/-- The effect of a successful `INSERT`: append the row to its table,
leaving every other table unchanged. -/
def DBState.insertRow (s : DBState) (t : String) (r : Row) : DBState :=
  { s with tables := s.tables.map (fun p => if p.1 == t then (p.1, p.2 ++ [r]) else p) }

/-- The value of a column in a row, if present. -/
def rowVal (r : Row) (col : String) : Option Value :=
  (r.find? (fun p => p.1 == col)).map Prod.snd

/-- The `category` column of a row, when it holds a string. -/
def rowCategory (r : Row) : Option String :=
  match rowVal r "category" with
  | some (Value.s c) => some c
  | _ => none

/-- The result of `SELECT category, COUNT(*) FROM t WHERE category IN inSet
GROUP BY category ORDER BY category`: one `(category, count)` group per
category that both occurs in the rows and belongs to `inSet`.  The script
always passes `inSet` in ascending order, so iterating `inSet` realises the
`ORDER BY`. -/
def categoryCounts (rows : List Row) (inSet : List String) : List (String × Nat) :=
  (inSet.map (fun c => (c, (rows.filter (fun r => rowCategory r == some c)).length))).filter
    (fun p => p.2 != 0)

/-- The SQL statements the script issues, at the granularity of their
relational effect. `dropTable`/`dropType` carry `IF EXISTS ... CASCADE`
semantics; `createType`/`createTable`/`createIndex` fail when the object
already exists; `insert` fails when the table is missing; the two select
forms are the reads `verify_setup` performs. -/
inductive Stmt where
  | dropTable (name : String)
  | dropType (name : String)
  | createType (name : String) (labels : List String)
  | createTable (name : String) (cols : List (String × String × Option String))
  | createIndex (name : String)
  | insert (table : String) (row : Row)
  | selectCount (table : String)
  | selectCategoryCounts (table : String) (inSet : List String)
deriving DecidableEq

/-- What a statement returns to the cursor: nothing (DDL/DML), a count, or
grouped category counts. -/
inductive QueryResult where
  | none
  | count (n : Nat)
  | groups (g : List (String × Nat))
deriving DecidableEq

/-- The reserved key words of PostgreSQL (the "reserved" category of its
keyword table, lower-cased; SQL key words are case-insensitive).  These are
never allowed as table or column identifiers unless quoted; the schema DDL
of this script quotes nothing. -/
def pgReservedWords : List String :=
  ["all", "analyse", "analyze", "and", "any", "array", "as", "asc",
   "asymmetric", "both", "case", "cast", "check", "collate", "column",
   "constraint", "create", "current_catalog", "current_date",
   "current_role", "current_time", "current_timestamp", "current_user",
   "default", "deferrable", "desc", "distinct", "do", "else", "end",
   "except", "false", "fetch", "for", "foreign", "from", "grant", "group",
   "having", "in", "initially", "intersect", "into", "lateral", "leading",
   "limit", "localtime", "localtimestamp", "not", "null", "offset", "on",
   "only", "or", "order", "placing", "primary", "references", "returning",
   "select", "session_user", "some", "symmetric", "table", "then", "to",
   "trailing", "true", "union", "unique", "user", "using", "variadic",
   "when", "where", "window", "with"]

/-- Execute one statement against the database state.  Errors are the
conditions PostgreSQL would report for these statement forms: a reserved
key word used unquoted as a table or column identifier in `CREATE TABLE`
(a syntax error, raised before any catalog lookup), creating an object that
exists, or addressing a missing table. -/
def execStmt (s : DBState) : Stmt → Except String (DBState × QueryResult)
  | .dropTable n =>
      .ok ({ s with tables := s.tables.filter (fun p => !(p.1 == n)) }, .none)
  | .dropType n =>
      .ok ({ s with enums := s.enums.filter (fun p => !(p.1 == n)) }, .none)
  | .createType n labels =>
      if s.hasEnum n then .error ("type " ++ n ++ " already exists")
      else .ok ({ s with enums := s.enums ++ [(n, labels)] }, .none)
  | .createTable n cols =>
      match (n :: cols.map Prod.fst).find? (fun w => pgReservedWords.contains w) with
      | some w => .error ("syntax error at or near \"" ++ w ++ "\"")
      | none =>
        if s.hasTable n then .error ("relation " ++ n ++ " already exists")
        else .ok ({ s with tables := s.tables ++ [(n, [])] }, .none)
  | .createIndex n =>
      if s.indexes.contains n then .error ("relation " ++ n ++ " already exists")
      else .ok ({ s with indexes := s.indexes ++ [n] }, .none)
  | .insert t r =>
      if s.hasTable t then .ok (s.insertRow t r, .none)
      else .error ("relation " ++ t ++ " does not exist")
  | .selectCount t =>
      if s.hasTable t then .ok (s, .count (s.rowCount t))
      else .error ("relation " ++ t ++ " does not exist")
  | .selectCategoryCounts t inSet =>
      if s.hasTable t then .ok (s, .groups (categoryCounts (s.rows t) inSet))
      else .error ("relation " ++ t ++ " does not exist")

/-- Run a list of statements in order, as the auto-commit connection does:
each statement's effect is immediately durable, and the first error aborts
the remainder. Collects the query results of the executed statements. -/
def runStmts (s : DBState) : List Stmt → Except String (DBState × List QueryResult)
  | [] => .ok (s, [])
  | st :: rest =>
    match execStmt s st with
    | .error e => .error e
    | .ok (s', r) =>
      match runStmts s' rest with
      | .error e => .error e
      | .ok (s'', rs) => .ok (s'', r :: rs)

/-! ## Schema as written in `db_setup.py` -/

/-- The table names `drop_existing_schema` drops, in source order (reverse
dependency order, dependents first). -/
def dropTablesList : List String :=
  ["audit_events", "jump_logs", "awards", "badges",
   "step_completions", "progression_steps", "assignments",
   "attendance_requests", "preferences", "session_blocks",
   "availability", "mentees", "mentors", "users"]

/-- The enumerated type names `drop_existing_schema` drops after the tables. -/
def dropEnumsList : List String := ["role", "status", "comfort_level", "category"]

/-- The statements `drop_existing_schema` executes: `DROP TABLE IF EXISTS ..
CASCADE` for every table, then `DROP TYPE IF EXISTS .. CASCADE` for every
enum. -/
def drop_existing_schema_stmts : List Stmt :=
  dropTablesList.map Stmt.dropTable ++ dropEnumsList.map Stmt.dropType

/-- The four enumerated types `create_enums` creates, with their exact label
lists, in the insertion order of the source dictionary. -/
def enumDefs : List (String × List String) :=
  [("role", ["mentor", "mentee", "admin"]),
   ("status", ["pending", "confirmed", "declined", "cancelled"]),
   ("comfort_level", ["low", "medium", "high"]),
   ("category", ["2way", "3way", "4way", "canopy", "safety"])]

/-- The statements `create_enums` executes. -/
def create_enums_stmts : List Stmt :=
  enumDefs.map (fun d => Stmt.createType d.1 d.2)

/-- Every table `create_tables` creates, in source order, with its columns as
`(column name, column type, referenced table when the column carries a
REFERENCES clause)`.  Primary keys, NOT NULL, UNIQUE and DEFAULT clauses are
not needed by any claim and are not modelled. -/
def tableSchemas : List (String × List (String × String × Option String)) :=
  [("users",
    [("id", "UUID", none), ("role", "role", none), ("name", "TEXT", none),
     ("email", "TEXT", none), ("phone", "TEXT", none),
     ("uspa_license", "TEXT", none), ("jumps", "INTEGER", none),
     ("is_active", "BOOLEAN", none), ("password_hash", "TEXT", none),
     ("created_at", "TIMESTAMP", none)]),
   ("mentors",
    [("id", "UUID", some "users"), ("ratings", "TEXT", none),
     ("coach_number", "TEXT", none), ("disciplines", "JSONB", none),
     ("max_concurrent_mentees", "INTEGER", none),
     ("seniority_score", "INTEGER", none), ("dz_endorsement", "BOOLEAN", none)]),
   ("mentees",
    [("id", "UUID", some "users"), ("goals", "TEXT", none),
     ("comfort_level", "comfort_level", none), ("canopy_size", "INTEGER", none),
     ("last_currency_date", "DATE", none)]),
   ("availability",
    [("id", "UUID", none), ("user_id", "UUID", some "users"),
     ("role", "role", none), ("day_of_week", "INTEGER", none),
     ("start_time", "TIME", none), ("end_time", "TIME", none),
     ("start_date", "DATE", none), ("end_date", "DATE", none),
     ("is_recurring", "BOOLEAN", none), ("capacity_override", "INTEGER", none)]),
   ("session_blocks",
    [("id", "UUID", none), ("mentor_id", "UUID", some "mentors"),
     ("date", "DATE", none), ("start_time", "TIME", none),
     ("end_time", "TIME", none), ("dz_id", "UUID", none),
     ("load_interval_min", "INTEGER", none),
     ("block_capacity_hint", "INTEGER", none)]),
   ("attendance_requests",
    [("id", "UUID", none), ("mentee_id", "UUID", some "mentees"),
     ("session_block_id", "UUID", some "session_blocks"),
     ("status", "status", none), ("created_at", "TIMESTAMP", none)]),
   ("preferences",
    [("id", "UUID", none), ("mentee_id", "UUID", some "mentees"),
     ("preferred_mentors", "JSONB", none), ("avoid_mentors", "JSONB", none),
     ("notes", "TEXT", none)]),
   ("assignments",
    [("id", "UUID", none), ("session_block_id", "UUID", some "session_blocks"),
     ("mentor_id", "UUID", some "mentors"), ("mentee_id", "UUID", some "mentees"),
     ("status", "status", none), ("created_at", "TIMESTAMP", none)]),
   ("progression_steps",
    [("id", "UUID", none), ("code", "TEXT", none), ("title", "TEXT", none),
     ("description", "TEXT", none), ("category", "category", none),
     ("required", "BOOLEAN", none), ("min_jumps_gate", "INTEGER", none),
     ("references", "JSONB", none)]),
   ("step_completions",
    [("id", "UUID", none), ("mentee_id", "UUID", some "mentees"),
     ("step_id", "UUID", some "progression_steps"),
     ("mentor_id", "UUID", some "mentors"),
     ("completed_at", "TIMESTAMP", none), ("evidence_url", "TEXT", none),
     ("notes", "TEXT", none)]),
   ("badges",
    [("id", "UUID", none), ("code", "TEXT", none), ("name", "TEXT", none),
     ("description", "TEXT", none), ("criteria_json", "JSONB", none)]),
   ("awards",
    [("id", "UUID", none), ("mentee_id", "UUID", some "mentees"),
     ("badge_id", "UUID", some "badges"), ("awarded_at", "TIMESTAMP", none)]),
   ("jump_logs",
    [("id", "UUID", none), ("mentee_id", "UUID", some "mentees"),
     ("date", "DATE", none), ("jump_number", "INTEGER", none),
     ("aircraft", "TEXT", none), ("exit_alt", "INTEGER", none),
     ("freefall_time", "INTEGER", none), ("deployment_alt", "INTEGER", none),
     ("pattern_notes", "TEXT", none), ("drill_ref", "TEXT", none),
     ("mentor_id", "UUID", some "mentors")]),
   ("audit_events",
    [("id", "UUID", none), ("actor_id", "UUID", some "users"),
     ("type", "TEXT", none), ("payload_json", "JSONB", none),
     ("at", "TIMESTAMP", none)])]

/-- The table names of `create_tables`, in creation order. -/
def tableNames : List String := tableSchemas.map Prod.fst

/-- The statements `create_tables` executes. -/
def create_tables_stmts : List Stmt :=
  tableSchemas.map (fun td => Stmt.createTable td.1 td.2)

/-- The foreign-key edges `(child, parent)` declared by the REFERENCES
clauses of `create_tables`, derived from the transcribed column lists. -/
def fkEdges : List (String × String) :=
  tableSchemas.flatMap (fun td => td.2.filterMap (fun c => c.2.2.map (fun p => (td.1, p))))

/-- The `(table, enum)` pairs where a table column's type is one of the four
enumerated types, derived from the transcribed column lists. -/
def enumRefPairs : List (String × String) :=
  tableSchemas.flatMap (fun td =>
    (td.2.filter (fun c => (enumDefs.map Prod.fst).contains c.2.1)).map (fun c => (td.1, c.2.1)))

/-- The index names `create_indexes` creates, in source order. -/
def indexDefs : List String :=
  ["idx_users_email", "idx_users_role", "idx_availability_user_id",
   "idx_availability_day_role", "idx_session_blocks_mentor_date",
   "idx_attendance_requests_session", "idx_assignments_session",
   "idx_assignments_mentor", "idx_assignments_mentee",
   "idx_step_completions_mentee", "idx_step_completions_step",
   "idx_progression_steps_category", "idx_awards_mentee",
   "idx_jump_logs_mentee", "idx_audit_events_actor", "idx_audit_events_type_at"]

/-- The statements `create_indexes` executes. -/
def create_indexes_stmts : List Stmt := indexDefs.map Stmt.createIndex

/-! ## Credential derivation (`hash_password`) -/

/-- The attributes the Python `hashlib` module exposes (CPython standard
library): the guaranteed constructors, `new`, and the two key-derivation
functions `pbkdf2_hmac` and `scrypt`.  There is no `pbkdf2_hex`. -/
def hashlibAttrs : List String :=
  ["md5", "sha1", "sha224", "sha256", "sha384", "sha512",
   "sha3_224", "sha3_256", "sha3_384", "sha3_512", "shake_128", "shake_256",
   "blake2b", "blake2s", "new", "pbkdf2_hmac", "scrypt",
   "algorithms_available", "algorithms_guaranteed"]

/-- Python attribute lookup on the `hashlib` module: returns the attribute
name when it exists, otherwise raises `AttributeError`. -/
def hashlibGetattr (name : String) : Except String String :=
  if hashlibAttrs.contains name then .ok name
  else .error ("AttributeError: module hashlib has no attribute " ++ name)

/-- `DatabaseSetup.hash_password`: evaluates
`hashlib.pbkdf2_hex(password.encode(), b'salt', 100000)`.  Attribute lookup
on `hashlib` happens first and fails (`hashlib` defines `pbkdf2_hmac`, not
`pbkdf2_hex`), so the call raises before any derivation; the continuation
after the lookup is never reached. -/
def hash_password (password : String) : Except String String := do
  let f ← hashlibGetattr "pbkdf2_hex"
  .ok (f ++ "(" ++ password ++ ", salt, 100000)")

/-! ## Seed data as written in `db_setup.py` -/

/-- One entry of `users_data` in `seed_users`. -/
structure UserSeed where
  role : String
  name : String
  email : String
  phone : String
  uspa_license : String
  jumps : Int
  password : String
deriving DecidableEq

/-- The three demo accounts of `seed_users`, in source order. -/
def users_data : List UserSeed :=
  [{ role := "mentor", name := "Alex Rodriguez", email := "mentor@test.com",
     phone := "+1-555-0101", uspa_license := "D-12345", jumps := 2500,
     password := "password123" },
   { role := "mentee", name := "Sarah Johnson", email := "mentee@test.com",
     phone := "+1-555-0102", uspa_license := "A-67890", jumps := 25,
     password := "password123" },
   { role := "admin", name := "Mike Admin", email := "admin@test.com",
     phone := "+1-555-0103", uspa_license := "D-54321", jumps := 5000,
     password := "password123" }]

/-- The row the `INSERT INTO users` statement of `seed_users` supplies for a
user, given the generated uuid and the computed password hash. -/
def userRow (u : UserSeed) (uid phash : String) : Row :=
  [("id", .s uid), ("role", .s u.role), ("name", .s u.name),
   ("email", .s u.email), ("phone", .s u.phone),
   ("uspa_license", .s u.uspa_license), ("jumps", .n u.jumps),
   ("password_hash", .s phash)]

/-- The `(table, row)` pairs `seed_users` inserts, parameterised by the uuid
sequence (`uuid.uuid4()` draws, uuids 0..2 here) and by the value
`hash_password` returns.  `hash_password` as written raises (see
`hash_password`); `hashFn` stands for the credential it was evidently
intended to return, so that the seeding steps can be stated as completing. -/
def seed_users_pairs (uuids : Nat → String) (hashFn : String → String) :
    List (String × Row) :=
  (users_data.enum).map (fun iu =>
    ("users", userRow iu.2 (uuids iu.1) (hashFn iu.2.password)))

/-- The insert statements of `seed_users` (see `seed_users_pairs`). -/
def seed_users_stmts (uuids : Nat → String) (hashFn : String → String) : List Stmt :=
  (seed_users_pairs uuids hashFn).map (fun p => Stmt.insert p.1 p.2)

/-- The statements of `seed_profiles`: a mentor profile for the mentor
(uuid 0), a mentor profile for the admin (uuid 2), and a mentee profile for
the mentee (uuid 1), with the literal values of the source. -/
def seed_profiles_pairs (uuids : Nat → String) : List (String × Row) :=
  [("mentors",
    [("id", .s (uuids 0)), ("ratings", .s "AFF-I, Tandem, Coach"),
     ("coach_number", .s "C-12345"),
     ("disciplines", .s "[\"AFF\", \"Tandem\", \"Coaching\"]"),
     ("max_concurrent_mentees", .n 3), ("seniority_score", .n 85),
     ("dz_endorsement", .b true)]),
   ("mentors",
    [("id", .s (uuids 2)),
     ("ratings", .s "AFF-I, Tandem, Coach, Instructor Examiner"),
     ("coach_number", .s "IE-98765"),
     ("disciplines", .s "[\"AFF\", \"Tandem\", \"Coaching\", \"Camera\"]"),
     ("max_concurrent_mentees", .n 5), ("seniority_score", .n 100),
     ("dz_endorsement", .b true)]),
   ("mentees",
    [("id", .s (uuids 1)),
     ("goals", .s "Complete AFF program and get A-license"),
     ("comfort_level", .s "medium"), ("canopy_size", .n 280),
     ("last_currency_date", .s "2024-12-15")])]

/-- The insert statements of `seed_profiles` (see `seed_profiles_pairs`). -/
def seed_profiles_stmts (uuids : Nat → String) : List Stmt :=
  (seed_profiles_pairs uuids).map (fun p => Stmt.insert p.1 p.2)

/-- One entry of `progression_data` in `seed_progression_steps`:
`(code, title, description, category, min_jumps)`. -/
structure StepSeed where
  code : String
  title : String
  description : String
  category : String
  min_jumps : Int
deriving DecidableEq

/-- The 24-entry A-license curriculum of `seed_progression_steps`, in source
order. -/
def progression_data : List StepSeed :=
  [⟨"2W-01", "Basic 2-Way Exit", "Learn synchronized exits with partner for stable relative work", "2way", 26⟩,
   ⟨"2W-02", "2-Way Sequential", "Complete 2-point sequential moves with partner", "2way", 30⟩,
   ⟨"3W-01", "Star Exit", "Master 3-way star exit from aircraft", "3way", 35⟩,
   ⟨"3W-02", "Sidebody Donut", "Build and hold sidebody donut formation", "3way", 40⟩,
   ⟨"3W-03", "Open Accordion", "Transition through open accordion formation", "3way", 45⟩,
   ⟨"3W-04", "Cat to Bipole", "Execute cat to bipole transition smoothly", "3way", 50⟩,
   ⟨"3W-05", "3-Way Sequential", "Complete 3-point sequential with 2 partners", "3way", 55⟩,
   ⟨"3W-06", "3-Way Random", "Complete random 3-way formations from draw", "3way", 60⟩,
   ⟨"4W-01", "Star to Diamond", "Transition from star to diamond formation", "4way", 65⟩,
   ⟨"4W-02", "Meeker Exit", "Execute proper 4-way meeker exit", "4way", 68⟩,
   ⟨"4W-03", "Compressed Accordion", "Build compressed accordion with 3 partners", "4way", 71⟩,
   ⟨"4W-04", "Bipole to Donut", "Smooth transition from bipole to donut", "4way", 74⟩,
   ⟨"4W-05", "Sidebody Box", "Form and maintain sidebody box formation", "4way", 77⟩,
   ⟨"4W-06", "Murphy Flake", "Complete murphy flake with proper grips", "4way", 80⟩,
   ⟨"4W-07", "4-Way Sequential", "Execute 4-point sequential moves", "4way", 83⟩,
   ⟨"4W-08", "Zipper to Bow", "Transition from zipper to bow formation", "4way", 86⟩,
   ⟨"4W-09", "Block Sequence", "Complete 2-block sequence with team", "4way", 90⟩,
   ⟨"4W-10", "4-Way Competition", "Perform competition-level 4-way sequences", "4way", 95⟩,
   ⟨"CAN-01", "Accuracy Landing", "Land within 5 meters of target consistently", "canopy", 30⟩,
   ⟨"CAN-02", "Traffic Pattern", "Navigate busy pattern with proper spacing", "canopy", 40⟩,
   ⟨"CAN-03", "Emergency Procedures", "Demonstrate malfunction response procedures", "canopy", 50⟩,
   ⟨"SAF-01", "Altitude Awareness", "Demonstrate proper altitude discipline", "safety", 26⟩,
   ⟨"SAF-02", "Collision Avoidance", "Show effective air traffic awareness", "safety", 35⟩,
   ⟨"SAF-03", "Emergency Response", "Execute emergency action plan correctly", "safety", 45⟩]

/-- The `(table, row)` pairs `seed_progression_steps` inserts. -/
def seed_progression_steps_pairs : List (String × Row) :=
  progression_data.map (fun p =>
    ("progression_steps",
      [("code", .s p.code), ("title", .s p.title),
       ("description", .s p.description), ("category", .s p.category),
       ("min_jumps_gate", .n p.min_jumps)]))

/-- The insert statements of `seed_progression_steps`. -/
def seed_progression_steps_stmts : List Stmt :=
  seed_progression_steps_pairs.map (fun p => Stmt.insert p.1 p.2)

/-- The ten badge definitions of `seed_badges`:
`(code, name, description)`, in source order. -/
def badges_data : List (String × String × String) :=
  [("FIRST_2WAY", "First 2-Way", "Complete your first 2-way formation"),
   ("FIRST_3WAY", "First 3-Way", "Complete your first 3-way formation"),
   ("FIRST_4WAY", "First 4-Way", "Complete your first 4-way formation"),
   ("FORMATION_MASTER", "Formation Master", "Complete all formation progression steps"),
   ("CANOPY_PILOT", "Canopy Pilot", "Master all canopy control skills"),
   ("SAFETY_CONSCIOUS", "Safety Conscious", "Complete all safety training"),
   ("A_LICENSE_READY", "A-License Ready", "Complete entire A-license curriculum"),
   ("QUICK_LEARNER", "Quick Learner", "Complete 5 steps in one week"),
   ("DEDICATED_STUDENT", "Dedicated Student", "Complete 20 jumps in training"),
   ("MENTOR_FAVORITE", "Mentor\x27s Favorite", "Receive positive feedback from 3 different mentors")]

/-- The `(table, row)` pairs `seed_badges` inserts. -/
def seed_badges_pairs : List (String × Row) :=
  badges_data.map (fun bd =>
    ("badges", [("code", .s bd.1), ("name", .s bd.2.1), ("description", .s bd.2.2)]))

/-- The insert statements of `seed_badges`. -/
def seed_badges_stmts : List Stmt :=
  seed_badges_pairs.map (fun p => Stmt.insert p.1 p.2)

/-- The statements of `seed_sample_data`: two availability rows, one session
block (uuid 3), one confirmed attendance request and one confirmed
assignment.  The session date is the SQL expression `CURRENT_DATE + 1`,
modelled as the literal expression text. -/
def seed_sample_data_pairs (uuids : Nat → String) : List (String × Row) :=
  [("availability",
    [("user_id", .s (uuids 0)), ("role", .s "mentor"), ("day_of_week", .n 6),
     ("start_time", .s "08:00"), ("end_time", .s "17:00")]),
   ("availability",
    [("user_id", .s (uuids 1)), ("role", .s "mentee"), ("day_of_week", .n 6),
     ("start_time", .s "09:00"), ("end_time", .s "16:00")]),
   ("session_blocks",
    [("id", .s (uuids 3)), ("mentor_id", .s (uuids 0)),
     ("date", .s "CURRENT_DATE + 1"), ("start_time", .s "10:00"),
     ("end_time", .s "15:00")]),
   ("attendance_requests",
    [("mentee_id", .s (uuids 1)), ("session_block_id", .s (uuids 3)),
     ("status", .s "confirmed")]),
   ("assignments",
    [("session_block_id", .s (uuids 3)), ("mentor_id", .s (uuids 0)),
     ("mentee_id", .s (uuids 1)), ("status", .s "confirmed")])]

/-- The insert statements of `seed_sample_data` (see
`seed_sample_data_pairs`). -/
def seed_sample_data_stmts (uuids : Nat → String) : List Stmt :=
  (seed_sample_data_pairs uuids).map (fun p => Stmt.insert p.1 p.2)

/-- The full statement sequence of `run_setup` without `--drop-existing`,
from `create_enums` through `seed_sample_data`, parameterised by the uuid
draws and the credential hash values (see `seed_users_stmts`). -/
def setupStmts (hashFn : String → String) (uuids : Nat → String) : List Stmt :=
  create_enums_stmts ++ create_tables_stmts ++ create_indexes_stmts ++
  seed_users_stmts uuids hashFn ++ seed_profiles_stmts uuids ++
  seed_progression_steps_stmts ++ seed_badges_stmts ++
  seed_sample_data_stmts uuids

/-- A database state holding the four enums, the fourteen data-model tables
(all empty) and the sixteen indexes — the state schema creation was intended
to produce.  It is not reachable by running `create_tables` (see the
reserved-word failure); it serves as a concrete input for witnesses. -/
def createdState : DBState :=
  { enums := enumDefs,
    tables := tableNames.map (fun n => (n, ([] : List Row))),
    indexes := indexDefs }

/-! ## Verification step (`verify_setup`) -/

/-- The tables whose row counts the loop of `verify_setup` iterates over. -/
def verifyTables : List String :=
  ["users", "mentors", "mentees", "progression_steps",
   "badges", "availability", "session_blocks"]

/-- The `IN` set of the grouped category query in `verify_setup`: only the
three formation categories; `canopy` and `safety` are not in the set. -/
def formationCategories : List String := ["2way", "3way", "4way"]

/-- A key of a Python dict as used by cursor rows: `RealDictRow`s are keyed
by column name (strings); `row[0]` looks up the integer key `0`. -/
inductive PyKey where
  | s (v : String)
  | i (v : Int)
deriving DecidableEq

/-- Python dict lookup on a cursor row: the value under the key, or
`KeyError` naming the key when absent. -/
def pyDictGet (row : List (PyKey × Nat)) (k : PyKey) : Except String Nat :=
  match row.find? (fun p => p.1 == k) with
  | some p => .ok p.2
  | none =>
    .error ("KeyError: " ++
      (match k with
       | PyKey.s v => v
       | PyKey.i v => toString v))

/-- The count loop of `verify_setup`: for each table, execute
`SELECT COUNT(*)` and read `count = self.cursor.fetchone()[0]`.  The cursor
was created with `cursor_factory=RealDictCursor` (in `connect`), so
`fetchone()` returns a dict keyed by the column name `count` — the integer
indexing `[0]` raises `KeyError: 0`. -/
def verify_counts (s : DBState) : List String → Except String (List Nat)
  | [] => .ok []
  | t :: rest =>
    match execStmt s (Stmt.selectCount t) with
    | .error e => .error e
    | .ok (_, QueryResult.count n) =>
      match pyDictGet [(PyKey.s "count", n)] (PyKey.i 0) with
      | .error e => .error e
      | .ok c =>
        match verify_counts s rest with
        | .error e => .error e
        | .ok cs => .ok (c :: cs)
    | .ok _ => .error "unexpected cursor result"

/-- `DatabaseSetup.verify_setup`: the count loop over `verifyTables`, then
the grouped category query (restricted to `formationCategories`), whose
result loop correctly reads the dict rows by column name.  All issued
statements are reads; the method's only effect is its return (or raised)
value. -/
def verify_setup (s : DBState) :
    Except String (List Nat × List (String × Nat)) :=
  match verify_counts s verifyTables with
  | .error e => .error e
  | .ok counts =>
    match execStmt s (Stmt.selectCategoryCounts "progression_steps"
        formationCategories) with
    | .error e => .error e
    | .ok (_, QueryResult.groups gs) => .ok (counts, gs)
    | .ok _ => .error "unexpected cursor result"

/-! ## Configuration (`DatabaseSetup.__init__`) -/

/-- The process environment: variable name to value.  `os.getenv` returns
the first binding, or `None` when absent. -/
abbrev Env := List (String × String)

/-- `os.getenv var` without default. -/
def getenv (env : Env) (k : String) : Option String :=
  (env.find? (fun p => p.1 == k)).map Prod.snd

/-- Python truthiness of `os.getenv(var)`: `None` (unset) and the empty
string are falsy, every other string is truthy. -/
def envTruthy (env : Env) (k : String) : Bool :=
  match getenv env k with
  | some v => v != ""
  | none => false

/-- The variables `__init__` requires. -/
def required_vars : List String := ["PGDATABASE", "PGUSER", "PGPASSWORD"]

/-- `missing_vars = [var for var in required_vars if not os.getenv(var)]`. -/
def missing_vars (env : Env) : List String :=
  required_vars.filter (fun v => !(envTruthy env v))

/-- Python `int(s)` on a string: optional surrounding whitespace and sign
followed by decimal digits; anything else raises `ValueError`.  (Underscore
digit grouping, accepted by CPython, is not modelled.) -/
def pyInt (str : String) : Except String Int :=
  let t := str.trim
  let (neg, ds) :=
    if t.startsWith "-" then (true, t.drop 1)
    else if t.startsWith "+" then (false, t.drop 1)
    else (false, t)
  match ds.toNat? with
  | some v => .ok (if neg then -(v : Int) else (v : Int))
  | Option.none => .error ("ValueError: invalid literal for int() with base 10: " ++ str)

/-- The connection parameters `__init__` assembles. -/
structure ConnParams where
  host : String
  port : Int
  database : Option String
  user : Option String
  password : Option String
deriving DecidableEq

/-- How `DatabaseSetup()` construction ends: an uncaught `ValueError` from
`int(os.getenv('PGPORT', 5432))`, a `sys.exit(1)` after printing the
missing-variable diagnostic, or a constructed instance ready to connect. -/
inductive InitOutcome where
  | valueError (msg : String)
  | exited (code : Nat) (diag : String)
  | ready (params : ConnParams)
deriving DecidableEq

/-- The first line `__init__` prints when required variables are missing;
it names every missing variable, comma-separated, in `required_vars`
order. -/
def missingDiag (env : Env) : String :=
  "Error: Missing required environment variables: " ++
    String.intercalate ", " (missing_vars env)

/-- `DatabaseSetup.__init__`: builds `connection_params` (converting
`PGPORT`, default 5432, with `int`, which may raise), then validates the
three required variables and calls `sys.exit(1)` with the diagnostic when
any is missing.  No database connection is attempted here; `connect` is a
separate later step, reachable only from a `ready` outcome. -/
def DatabaseSetup_init (env : Env) : InitOutcome :=
  let portRes :=
    match getenv env "PGPORT" with
    | some v => pyInt v
    | Option.none => .ok (5432 : Int)
  match portRes with
  | .error m => .valueError m
  | .ok port =>
    if missing_vars env ≠ [] then .exited 1 (missingDiag env)
    else
      .ready { host := (getenv env "PGHOST").getD "localhost", port := port,
               database := getenv env "PGDATABASE", user := getenv env "PGUSER",
               password := getenv env "PGPASSWORD" }

/-! ## Connection lifecycle (`connect` / `disconnect`) -/

/-- The `cursor` and `conn` attributes of a `DatabaseSetup` instance:
`none` models the Python `None` set by `__init__`; `some b` models a cursor
or connection object, `b` recording whether it is still open. -/
structure ConnState where
  cursor : Option Bool := none
  conn : Option Bool := none
deriving DecidableEq

/-- Python truthiness of the attribute: `None` is falsy, any object (open or
closed) is truthy. -/
def pyTruthy (o : Option Bool) : Bool := o.isSome

/-- Calling `.close()` on the attribute: on `None` it would raise
`AttributeError`; on an object it closes it. -/
def pyClose : Option Bool → Except String (Option Bool)
  | some _ => .ok (some false)
  | Option.none => .error "AttributeError: NoneType object has no attribute close"

/-- `DatabaseSetup.disconnect`: closes the cursor if truthy, then the
connection if truthy.  The truthiness guards are what keep the `.close()`
calls away from `None`. -/
def disconnect (c : ConnState) : Except String ConnState := do
  let c1 ←
    if pyTruthy c.cursor then do
      let cur ← pyClose c.cursor
      pure { c with cursor := cur }
    else pure c
  if pyTruthy c1.conn then do
    let cn ← pyClose c1.conn
    pure { c1 with conn := cn }
  else pure c1

/-- The pure effect of `disconnect` (it never raises, see
`disconnect_eq_pure`): used by the `finally` clause of `run_setup`. -/
def disconnectPure (c : ConnState) : ConnState :=
  let c1 := if pyTruthy c.cursor then { c with cursor := some false } else c
  if pyTruthy c1.conn then { c1 with conn := some false } else c1

/-- Neither attribute refers to an open object. -/
def ConnState.released (c : ConnState) : Bool :=
  c.cursor != some true && c.conn != some true

/-! ## Orchestration (`run_setup` and `main`) -/

/-- One setup step after connection: transforms the database state or raises
an exception message. -/
abbrev SetupStep := DBState → Except String DBState

/-- A step that executes a statement list on the shared cursor. -/
def stmtsStep (l : List Stmt) : SetupStep := fun s =>
  match runStmts s l with
  | .error e => .error e
  | .ok (s', _) => .ok s'

/-- Run the steps in order; the first exception carries the database state
at the failure point (each prior statement already committed, auto-commit). -/
def runStepsE : DBState → List SetupStep → Except (String × DBState) DBState
  | s, [] => .ok s
  | s, f :: rest =>
    match f s with
    | .error e => .error (e, s)
    | .ok s' => runStepsE s' rest

/-- The observable outcome of `run_setup`: process exit code, console
output markers, final database state, and the cursor/connection attributes
after the `finally` clause. -/
structure SetupOutcome where
  exitCode : Nat
  output : List String
  db : DBState
  conn : ConnState
deriving DecidableEq

/-- `DatabaseSetup.run_setup`: `try` connect then run the steps; `except
Exception` prints the failure marker and exits 1; `finally` disconnects.
A connect failure prints its error and raises `SystemExit(1)` inside
`connect`; `SystemExit` is not an `Exception`, so it bypasses the handler
but still passes through `finally`.  `connectOk` abstracts whether the
server accepts the connection (network behaviour outside the program). -/
def run_setup (connectOk : Bool) (steps : List SetupStep) (s : DBState) : SetupOutcome :=
  if !connectOk then
    { exitCode := 1,
      output := ["Error connecting to database"],
      db := s,
      conn := disconnectPure {} }
  else
    let c : ConnState := { cursor := some true, conn := some true }
    match runStepsE s steps with
    | .ok s' =>
      { exitCode := 0,
        output := ["✓ Database connection established",
                   "🎉 Database setup completed successfully!"],
        db := s',
        conn := disconnectPure c }
    | .error (e, sErr) =>
      { exitCode := 1,
        output := ["✓ Database connection established", "❌ Setup failed: " ++ e],
        db := sErr,
        conn := disconnectPure c }

/-- The step `seed_users` performs with the real `hash_password`: for each
user, draw a uuid, compute the hash (which raises, see `hash_password`),
then insert. -/
def seed_users_step (uuids : Nat → String) : SetupStep := fun s =>
  (users_data.enum).foldlM (fun st iu => do
    let h ← hash_password iu.2.password
    match execStmt st (Stmt.insert "users" (userRow iu.2 (uuids iu.1) h)) with
    | .error e => .error e
    | .ok (st', _) => .ok st') s

/-- `verify_setup` as a step of `run_setup`: read-only, so on success the
database state is returned unchanged. -/
def verify_setup_step : SetupStep := fun s =>
  match verify_setup s with
  | .error e => .error e
  | .ok _ => .ok s

/-- The concrete step list of `run_setup (drop_existing)`: optional schema
drop, then enums, tables, indexes, then the seed steps (users with the real
`hash_password`) and verification. -/
def programSteps (dropExisting : Bool) (uuids : Nat → String) : List SetupStep :=
  (if dropExisting then [stmtsStep drop_existing_schema_stmts] else []) ++
  [stmtsStep create_enums_stmts, stmtsStep create_tables_stmts,
   stmtsStep create_indexes_stmts, seed_users_step uuids,
   stmtsStep (seed_profiles_stmts uuids), stmtsStep seed_progression_steps_stmts,
   stmtsStep seed_badges_stmts, stmtsStep (seed_sample_data_stmts uuids),
   verify_setup_step]

/-- Python `str.lower()` on the confirmation response: lower-case every
character. -/
def pyLower (s : String) : String := String.mk (s.data.map Char.toLower)

/-- How a `main` invocation ends. -/
inductive MainOutcome where
  | cancelled (db : DBState)
  | initValueError (msg : String) (db : DBState)
  | initExited (code : Nat) (diag : String) (db : DBState)
  | ran (o : SetupOutcome)
deriving DecidableEq

/-- `main`: parses `--drop-existing`; when the flag is given, prompts and
returns (`Setup cancelled.`) unless `confirm.lower() == 'yes'`; only then
constructs `DatabaseSetup` (which may exit on configuration) and runs
`run_setup`.  `response` is the operator's interactive reply (consulted only
under the flag), `db` the pre-existing database state. -/
def main (dropExisting : Bool) (response : String) (env : Env)
    (connectOk : Bool) (uuids : Nat → String) (db : DBState) : MainOutcome :=
  if dropExisting && pyLower response != "yes" then .cancelled db
  else
    match DatabaseSetup_init env with
    | .valueError m => .initValueError m db
    | .exited c d => .initExited c d db
    | .ready _ => .ran (run_setup connectOk (programSteps dropExisting uuids) db)

/-! ## Structural lemmas about statement execution -/

/-- Running a concatenation of statement lists runs the first list, then the
second from the resulting state. -/
theorem runStmts_append (l1 l2 : List Stmt) (s : DBState) :
    runStmts s (l1 ++ l2) =
      match runStmts s l1 with
      | .error e => .error e
      | .ok (s1, r1) =>
        match runStmts s1 l2 with
        | .error e => .error e
        | .ok (s2, r2) => .ok (s2, r1 ++ r2) := by
  induction l1 generalizing s with
  | nil =>
    cases h : runStmts s l2 with
    | error e => simp [runStmts, h]
    | ok p => simp [runStmts, h]
  | cons st rest ih =>
    cases hx : execStmt s st with
    | error e => simp [runStmts, hx]
    | ok p =>
      cases h1 : runStmts p.1 rest with
      | error e => simp [runStmts, hx, ih, h1]
      | ok q =>
        cases h2 : runStmts q.1 l2 with
        | error e => simp [runStmts, hx, ih, h1, h2]
        | ok w => simp [runStmts, hx, ih, h1, h2]

/-- A run of `DROP TABLE IF EXISTS` statements never fails and removes
exactly the named tables, leaving enums and indexes untouched. -/
theorem runStmts_dropTables (ts : List String) (s : DBState) :
    runStmts s (ts.map Stmt.dropTable) =
      .ok ({ s with tables := s.tables.filter (fun p => !(ts.contains p.1)) },
           ts.map (fun _ => QueryResult.none)) := by
  induction ts generalizing s with
  | nil => simp [runStmts]
  | cons t rest ih =>
    have hf : ∀ l : List (String × List Row),
        List.filter (fun p => !rest.contains p.1)
            (List.filter (fun p => !(p.1 == t)) l) =
          List.filter (fun p => !((t :: rest).contains p.1)) l := by
      intro l
      rw [List.filter_filter]
      refine List.filter_congr (fun p _ => ?_)
      simp only [List.contains_cons, Bool.not_or]
      exact Bool.and_comm _ _
    simp only [List.map_cons, runStmts, execStmt, ih, hf]

/-- A run of `DROP TYPE IF EXISTS` statements never fails and removes
exactly the named types, leaving tables and indexes untouched. -/
theorem runStmts_dropTypes (ts : List String) (s : DBState) :
    runStmts s (ts.map Stmt.dropType) =
      .ok ({ s with enums := s.enums.filter (fun p => !(ts.contains p.1)) },
           ts.map (fun _ => QueryResult.none)) := by
  induction ts generalizing s with
  | nil => simp [runStmts]
  | cons t rest ih =>
    have hf : ∀ l : List (String × List String),
        List.filter (fun p => !rest.contains p.1)
            (List.filter (fun p => !(p.1 == t)) l) =
          List.filter (fun p => !((t :: rest).contains p.1)) l := by
      intro l
      rw [List.filter_filter]
      refine List.filter_congr (fun p _ => ?_)
      simp only [List.contains_cons, Bool.not_or]
      exact Bool.and_comm _ _
    simp only [List.map_cons, runStmts, execStmt, ih, hf]

/-- The full `drop_existing_schema` run: always succeeds, removes the listed
tables and then the listed types. -/
theorem runStmts_drop_schema (s : DBState) :
    runStmts s drop_existing_schema_stmts =
      .ok ({ s with
             tables := s.tables.filter (fun p => !(dropTablesList.contains p.1)),
             enums := s.enums.filter (fun p => !(dropEnumsList.contains p.1)) },
           dropTablesList.map (fun _ => QueryResult.none) ++
             dropEnumsList.map (fun _ => QueryResult.none)) := by
  simp only [drop_existing_schema_stmts, runStmts_append, runStmts_dropTables,
    runStmts_dropTypes]

/-- Table existence over an appended table list. -/
theorem hasTable_append (s : DBState) (l : List (String × List Row)) (x : String) :
    DBState.hasTable { s with tables := s.tables ++ l } x =
      (s.hasTable x || l.any (fun p => p.1 == x)) := by
  simp [DBState.hasTable, List.any_append]

/-- Enum existence over an appended enum list. -/
theorem hasEnum_append (s : DBState) (l : List (String × List String)) (x : String) :
    DBState.hasEnum { s with enums := s.enums ++ l } x =
      (s.hasEnum x || l.any (fun p => p.1 == x)) := by
  simp [DBState.hasEnum, List.any_append]

/-- A run of `CREATE TYPE` statements on fresh, pairwise-distinct type names
succeeds and appends exactly the given definitions. -/
theorem runStmts_createTypes (ds : List (String × List String)) :
    ∀ s : DBState, (ds.map Prod.fst).Nodup → (∀ d ∈ ds, s.hasEnum d.1 = false) →
    runStmts s (ds.map (fun d => Stmt.createType d.1 d.2)) =
      .ok ({ s with enums := s.enums ++ ds }, ds.map (fun _ => QueryResult.none)) := by
  induction ds with
  | nil => intro s _ _; simp [runStmts]
  | cons d rest ih =>
    intro s hnd h
    have hd : s.hasEnum d.1 = false := h d (List.mem_cons_self _ _)
    have hndr : (rest.map Prod.fst).Nodup := by
      simp only [List.map_cons, List.nodup_cons] at hnd
      exact hnd.2
    have hrest : ∀ d' ∈ rest,
        DBState.hasEnum { s with enums := s.enums ++ [d] } d'.1 = false := by
      intro d' hd'
      have h1 : s.hasEnum d'.1 = false := h d' (List.mem_cons_of_mem _ hd')
      have hne : d.1 ≠ d'.1 := by
        simp only [List.map_cons, List.nodup_cons] at hnd
        intro hEq
        exact hnd.1 (hEq ▸ List.mem_map_of_mem Prod.fst hd')
      simp [hasEnum_append, h1, hne]
    simp [runStmts, execStmt, hd, ih _ hndr hrest, List.append_assoc]

/-- A run of `CREATE TABLE` statements on fresh, pairwise-distinct table
names whose identifiers avoid the reserved words succeeds and appends
exactly the named tables, each empty. -/
theorem runStmts_createTables (ds : List (String × List (String × String × Option String))) :
    ∀ s : DBState, (ds.map Prod.fst).Nodup →
    (∀ d ∈ ds, (d.1 :: d.2.map Prod.fst).find? (fun w => pgReservedWords.contains w) =
      Option.none) →
    (∀ d ∈ ds, s.hasTable d.1 = false) →
    runStmts s (ds.map (fun td => Stmt.createTable td.1 td.2)) =
      .ok ({ s with tables := s.tables ++ ds.map (fun td => (td.1, ([] : List Row))) },
           ds.map (fun _ => QueryResult.none)) := by
  induction ds with
  | nil => intro s _ _ _; simp [runStmts]
  | cons d rest ih =>
    intro s hnd hres h
    have hresd : (d.1 :: d.2.map Prod.fst).find? (fun w => pgReservedWords.contains w) =
        Option.none := hres d (List.mem_cons_self _ _)
    have hresr : ∀ d' ∈ rest,
        (d'.1 :: d'.2.map Prod.fst).find? (fun w => pgReservedWords.contains w) =
          Option.none := fun d' hd' => hres d' (List.mem_cons_of_mem _ hd')
    have hd : s.hasTable d.1 = false := h d (List.mem_cons_self _ _)
    have hndr : (rest.map Prod.fst).Nodup := by
      simp only [List.map_cons, List.nodup_cons] at hnd
      exact hnd.2
    have hrest : ∀ d' ∈ rest,
        DBState.hasTable { s with tables := s.tables ++ [(d.1, ([] : List Row))] } d'.1 = false := by
      intro d' hd'
      have h1 : s.hasTable d'.1 = false := h d' (List.mem_cons_of_mem _ hd')
      have hne : d.1 ≠ d'.1 := by
        simp only [List.map_cons, List.nodup_cons] at hnd
        intro hEq
        exact hnd.1 (hEq ▸ List.mem_map_of_mem Prod.fst hd')
      simp [hasTable_append, h1, hne]
    have hstep : execStmt s (Stmt.createTable d.1 d.2) =
        .ok ({ s with tables := s.tables ++ [(d.1, ([] : List Row))] },
          QueryResult.none) := by
      simp only [execStmt, hresd, hd, Bool.false_eq_true, if_false]
    simp [runStmts, hstep, ih _ hndr hresr hrest, List.append_assoc]

/-- After filtering out every pair whose key is in `names`, no pair with a
key from `names` can be found. -/
theorem any_filter_contains {β : Type} (l : List (String × β)) (names : List String)
    (x : String) (hx : names.contains x = true) :
    (l.filter (fun p => !(names.contains p.1))).any (fun p => p.1 == x) = false := by
  rw [List.any_eq_false]
  intro p hp
  rcases List.mem_filter.mp hp with ⟨_, hkeep⟩
  intro hbeq
  have hpx : p.1 = x := beq_iff_eq.mp hbeq
  rw [hpx, hx] at hkeep
  simp at hkeep

/-- Sequential composition of two successful statement runs. -/
theorem runStmts_append_ok {l1 l2 : List Stmt} {s s1 s2 : DBState}
    {r1 r2 : List QueryResult}
    (h1 : runStmts s l1 = .ok (s1, r1)) (h2 : runStmts s1 l2 = .ok (s2, r2)) :
    runStmts s (l1 ++ l2) = .ok (s2, r1 ++ r2) := by
  simp only [runStmts_append, h1, h2]

/-- An error in the first statement list short-circuits the concatenation
(the auto-commit connection aborts at the first failing statement). -/
theorem runStmts_append_error {l1 l2 : List Stmt} {s : DBState} {e : String}
    (h : runStmts s l1 = .error e) :
    runStmts s (l1 ++ l2) = .error e := by
  simp only [runStmts_append, h]

/-- A successful first list followed by a failing second list fails with the
second list's error. -/
theorem runStmts_append_ok_error {l1 l2 : List Stmt} {s s1 : DBState}
    {r1 : List QueryResult} {e : String}
    (h1 : runStmts s l1 = .ok (s1, r1)) (h2 : runStmts s1 l2 = .error e) :
    runStmts s (l1 ++ l2) = .error e := by
  simp only [runStmts_append, h1, h2]

/-- A failing statement at the head fails the whole run. -/
theorem runStmts_cons_error {s : DBState} {stm : Stmt} {rest : List Stmt}
    {e : String} (h : execStmt s stm = .error e) :
    runStmts s (stm :: rest) = .error e := by
  simp [runStmts, h]

/-! ## C1: reset-then-create aborts on a reserved column name -/

/-- The statements of a reset-then-create run: `drop_existing_schema`, then
`create_enums`, then `create_tables`, exactly as `run_setup` sequences them
before any seeding statement. -/
def resetCreateStmts : List Stmt :=
  drop_existing_schema_stmts ++ create_enums_stmts ++ create_tables_stmts

/-- C1 (code bug): reset-then-create cannot produce the data-model tables.
The `progression_steps` DDL — the ninth of the fourteen `CREATE TABLE`
statements — declares a column named `references`, a PostgreSQL reserved
word, unquoted; the server rejects it with a syntax error, so from any
starting state the run aborts there and `progression_steps` and the five
tables after it are never created.  `progression_steps` is the only table
of the schema with a reserved identifier. -/
theorem reset_then_create_fails_at_reserved_column (s : DBState) :
    runStmts s resetCreateStmts = .error "syntax error at or near \"references\"" ∧
    (tableSchemas.filter (fun td =>
      (td.1 :: td.2.map Prod.fst).any (fun w => pgReservedWords.contains w))).map
        Prod.fst = ["progression_steps"] := by
  refine ⟨?_, by decide⟩
  have hTsub : ∀ n ∈ tableNames, dropTablesList.contains n = true := by decide
  have hEsub : ∀ d ∈ enumDefs, dropEnumsList.contains d.1 = true := by decide
  have hEnodup : (enumDefs.map Prod.fst).Nodup := by decide
  have h8nodup : ((tableSchemas.take 8).map Prod.fst).Nodup := by decide
  have h8res : ∀ d ∈ tableSchemas.take 8,
      (d.1 :: d.2.map Prod.fst).find? (fun w => pgReservedWords.contains w) =
        Option.none := by decide
  have h1 := runStmts_drop_schema s
  have hs1E : ∀ d ∈ enumDefs,
      DBState.hasEnum
        (DBState.mk (s.enums.filter (fun p => !(dropEnumsList.contains p.1)))
          (s.tables.filter (fun p => !(dropTablesList.contains p.1))) s.indexes)
        d.1 = false := by
    intro d hd
    exact any_filter_contains s.enums dropEnumsList d.1 (hEsub d hd)
  have h2 := runStmts_createTypes enumDefs _ hEnodup hs1E
  have hs2T : ∀ td ∈ tableSchemas.take 8,
      DBState.hasTable
        (DBState.mk (s.enums.filter (fun p => !(dropEnumsList.contains p.1)) ++ enumDefs)
          (s.tables.filter (fun p => !(dropTablesList.contains p.1))) s.indexes)
        td.1 = false := by
    intro td htd
    exact any_filter_contains s.tables dropTablesList td.1
      (hTsub td.1 (List.mem_map_of_mem Prod.fst (List.take_subset _ _ htd)))
  have h3 := runStmts_createTables (tableSchemas.take 8) _ h8nodup h8res hs2T
  have hct : runStmts
      (DBState.mk (s.enums.filter (fun p => !(dropEnumsList.contains p.1)) ++ enumDefs)
        (s.tables.filter (fun p => !(dropTablesList.contains p.1))) s.indexes)
      create_tables_stmts = .error "syntax error at or near \"references\"" := by
    have hsplit : create_tables_stmts =
        (tableSchemas.take 8).map (fun td => Stmt.createTable td.1 td.2) ++
        (tableSchemas.drop 8).map (fun td => Stmt.createTable td.1 td.2) := by
      rw [create_tables_stmts, ← List.map_append, List.take_append_drop]
    rw [hsplit]
    exact runStmts_append_ok_error h3 (runStmts_cons_error rfl)
  exact runStmts_append_ok_error (runStmts_append_ok h1 h2) hct

/-- Witness for C1 at a concrete non-empty database: the reset-then-create
run aborts with the reserved-word syntax error there too. -/
theorem reset_then_create_fails_witness :
    runStmts
      { enums := [("role", ["x"])],
        tables := [("users", [[("name", Value.s "old")]]), ("scratch", [])],
        indexes := ["idx_old"] } resetCreateStmts =
      .error "syntax error at or near \"references\"" ∧
    (tableSchemas.filter (fun td =>
      (td.1 :: td.2.map Prod.fst).any (fun w => pgReservedWords.contains w))).map
        Prod.fst = ["progression_steps"] :=
  reset_then_create_fails_at_reserved_column _

/-! ## C6: drop order and idempotence of the schema reset -/

/-- Position of a table name in `drop_existing_schema`'s drop sequence. -/
def dropIdx (n : String) : Nat := dropTablesList.findIdx (fun m => m == n)

/-- C6: `drop_existing_schema` drops every dependent table strictly before
any table it references (for each foreign-key edge of the schema), removes
every listed table and every enumerated type, and — because every removal is
`IF EXISTS` — succeeds from any database state, so an immediate second run
also succeeds. -/
theorem drop_schema_reverse_dep_and_idempotent :
    (fkEdges.all (fun e => Nat.blt (dropIdx e.1) (dropIdx e.2)) = true) ∧
    ∀ s : DBState, ∃ s1 rs1,
      runStmts s drop_existing_schema_stmts = .ok (s1, rs1) ∧
      dropTablesList.all (fun n => !(s1.hasTable n)) = true ∧
      dropEnumsList.all (fun n => !(s1.hasEnum n)) = true ∧
      ∃ s2 rs2, runStmts s1 drop_existing_schema_stmts = .ok (s2, rs2) := by
  refine ⟨by decide, fun s => ⟨_, _, runStmts_drop_schema s, ?_, ?_, _, _, runStmts_drop_schema _⟩⟩
  · rw [List.all_eq_true]
    intro n hn
    have hc : dropTablesList.contains n = true := List.elem_eq_true_of_mem hn
    have hany := any_filter_contains s.tables dropTablesList n hc
    rw [DBState.hasTable]
    rw [hany]
    rfl
  · rw [List.all_eq_true]
    intro n hn
    have hc : dropEnumsList.contains n = true := List.elem_eq_true_of_mem hn
    have hany := any_filter_contains s.enums dropEnumsList n hc
    rw [DBState.hasEnum]
    rw [hany]
    rfl

/-- Witness for C6 at a concrete state: a database holding one populated
table and one enumerated type; both drop runs succeed and everything listed
is gone after the first. -/
theorem drop_schema_idempotent_witness :
    ∃ s1 rs1,
      runStmts
        { enums := [("status", ["pending"])],
          tables := [("users", [[("name", Value.s "old")]])],
          indexes := [] } drop_existing_schema_stmts = .ok (s1, rs1) ∧
      dropTablesList.all (fun n => !(s1.hasTable n)) = true ∧
      dropEnumsList.all (fun n => !(s1.hasEnum n)) = true ∧
      ∃ s2 rs2, runStmts s1 drop_existing_schema_stmts = .ok (s2, rs2) :=
  drop_schema_reverse_dep_and_idempotent.2 _

/-! ## C7: enum creation — exact label sets, before referencing tables -/

/-- The schema-creation statement trace of `run_setup`: `create_enums`
immediately followed by `create_tables`. -/
def schemaStmts : List Stmt := create_enums_stmts ++ create_tables_stmts

/-- Index in the schema trace of the `CREATE TYPE` statement for an enum. -/
def typeStmtIdx (e : String) : Nat :=
  schemaStmts.findIdx (fun st =>
    match st with
    | Stmt.createType nm _ => nm == e
    | _ => false)

/-- Index in the schema trace of the `CREATE TABLE` statement for a table. -/
def tableStmtIdx (t : String) : Nat :=
  schemaStmts.findIdx (fun st =>
    match st with
    | Stmt.createTable nm _ => nm == t
    | _ => false)

/-- C7: running `create_enums` creates exactly the four enumerated types
`role`, `status`, `comfort_level`, `category` with exactly the stated label
sets (and nothing else), and in the schema trace every enum's `CREATE TYPE`
statement precedes the `CREATE TABLE` statement of every table referencing
it by column type — all six referencing columns of the schema are covered. -/
theorem enums_exact_and_precede_tables :
    (∃ rs, runStmts DBState.empty create_enums_stmts =
      .ok (DBState.mk
        [("role", ["mentor", "mentee", "admin"]),
         ("status", ["pending", "confirmed", "declined", "cancelled"]),
         ("comfort_level", ["low", "medium", "high"]),
         ("category", ["2way", "3way", "4way", "canopy", "safety"])] [] [], rs)) ∧
    enumRefPairs.all (fun te => Nat.blt (typeStmtIdx te.2) (tableStmtIdx te.1)) = true ∧
    enumRefPairs.length = 6 :=
  ⟨⟨_, rfl⟩, by decide, by decide⟩

/-! ## C4: the seeding steps can never complete -/

/-- C4 (code bug): the full setup statement run on a fresh schema fails
during `create_tables` — at the reserved column name `references` of the
`progression_steps` DDL — before any index is created or any seed row
inserted, whatever the uuid draws and whatever value the credential hash is
taken to be; and independently, `seed_users` itself could never complete,
because `hash_password` raises on every password.  So the seeding steps
never complete and the seeded row counts never materialise. -/
theorem setup_run_fails_before_seeding (hashFn : String → String)
    (uuids : Nat → String) :
    runStmts DBState.empty (setupStmts hashFn uuids) =
      .error "syntax error at or near \"references\"" ∧
    ∀ password : String,
      hash_password password =
        .error "AttributeError: module hashlib has no attribute pbkdf2_hex" := by
  constructor
  · have h2 : runStmts DBState.empty (create_enums_stmts ++ create_tables_stmts) =
        .error "syntax error at or near \"references\"" := rfl
    show runStmts DBState.empty
        (create_enums_stmts ++ create_tables_stmts ++ create_indexes_stmts ++
         seed_users_stmts uuids hashFn ++ seed_profiles_stmts uuids ++
         seed_progression_steps_stmts ++ seed_badges_stmts ++
         seed_sample_data_stmts uuids) = _
    exact runStmts_append_error (runStmts_append_error (runStmts_append_error
      (runStmts_append_error (runStmts_append_error (runStmts_append_error h2)))))
  · intro password
    rfl

/-- Witness for C4 at concrete hash values and uuid draws. -/
theorem setup_run_fails_witness :
    runStmts DBState.empty
        (setupStmts (fun p => String.append "pbkdf2:" p)
          (fun k => String.append "uuid-" (toString k))) =
      .error "syntax error at or near \"references\"" ∧
    ∀ password : String,
      hash_password password =
        .error "AttributeError: module hashlib has no attribute pbkdf2_hex" :=
  setup_run_fails_before_seeding _ _

/-! ## C2: the credential derivation call raises -/

/-- C2 (code bug): `hash_password` never returns a credential.  The
attribute lookup `hashlib.pbkdf2_hex` raises `AttributeError` (the module
provides `pbkdf2_hmac`, not `pbkdf2_hex`), already on the demo password the
seed accounts use — so no deterministic PBKDF2 digest is ever produced. -/
theorem hash_password_raises :
    hash_password "password123" =
      .error "AttributeError: module hashlib has no attribute pbkdf2_hex" ∧
    ∀ password : String,
      hash_password password =
        .error "AttributeError: module hashlib has no attribute pbkdf2_hex" :=
  ⟨rfl, fun _ => rfl⟩

/-! ## C3: `verify_setup` crashes before reporting anything -/

/-- C3 (code bug): on any database where the `users` table exists (the
first table of the loop), `verify_setup` raises `KeyError: 0` at its first
count: `fetchone()` under `RealDictCursor` is a dict keyed by the column
name `count`, so the integer indexing `[0]` fails.  It therefore reports no
table count and never reaches the per-category grouping (whose query, as
written, covers only `2way`/`3way`/`4way` anyway).  Every statement it
issues is a read, so the database state is untouched. -/
theorem verify_setup_crashes_on_first_count (s : DBState)
    (h : s.hasTable "users" = true) :
    verify_setup s = .error "KeyError: 0" := by
  have hcount : verify_counts s verifyTables = .error "KeyError: 0" := by
    show verify_counts s ("users" :: _) = _
    rw [verify_counts]
    simp only [execStmt, h, if_true]
    rfl
  rw [verify_setup, hcount]

/-- Witness for C3 at a concrete state holding all fourteen tables. -/
theorem verify_setup_crashes_witness :
    createdState.hasTable "users" = true ∧
    verify_setup createdState = .error "KeyError: 0" :=
  ⟨by decide, verify_setup_crashes_on_first_count createdState (by decide)⟩

/-! ## C5: missing environment variables -/

/-- Whether `int(os.getenv('PGPORT', 5432))` succeeds for this environment
(it does whenever `PGPORT` is unset or holds an integer literal). -/
def pgportOk (env : Env) : Bool :=
  match getenv env "PGPORT" with
  | some v =>
    match pyInt v with
    | .ok _ => true
    | .error _ => false
  | Option.none => true

/-- C5: when any of `PGDATABASE`, `PGUSER`, `PGPASSWORD` is absent (or
empty), `__init__` exits with code 1 carrying the diagnostic that names
every missing variable (`missingDiag` is the comma-separated list of exactly
the missing ones), every absent required variable is in that list, and the
whole program run ends in that configuration exit — no connection attempt
(`run_setup` is never reached, so no `connect`). -/
theorem missing_env_exits_before_connect (env : Env)
    (hport : pgportOk env = true) (hmiss : missing_vars env ≠ []) :
    DatabaseSetup_init env = .exited 1 (missingDiag env) ∧
    (∀ v ∈ required_vars, envTruthy env v = false → v ∈ missing_vars env) ∧
    ∀ (resp : String) (connectOk : Bool) (uuids : Nat → String) (db : DBState),
      main false resp env connectOk uuids db =
        .initExited 1 (missingDiag env) db := by
  have hinit : DatabaseSetup_init env = .exited 1 (missingDiag env) := by
    rw [DatabaseSetup_init]
    cases hv : getenv env "PGPORT" with
    | none => simp [hmiss]
    | some v =>
      cases hpi : pyInt v with
      | error m =>
        exfalso
        simp [pgportOk, hv, hpi] at hport
      | ok z => simp [hpi, hmiss]
  refine ⟨hinit, ?_, ?_⟩
  · intro v hv htruthy
    rw [missing_vars, List.mem_filter]
    exact ⟨hv, by rw [htruthy]; rfl⟩
  · intro resp connectOk uuids db
    simp [main, hinit]

/-- Witness for C5: `PGUSER` alone missing (with `PGDATABASE` and
`PGPASSWORD` set) exits with code 1 and a diagnostic naming `PGUSER`. -/
theorem missing_env_exits_witness :
    pgportOk [("PGDATABASE", "skymentor"), ("PGPASSWORD", "secret")] = true ∧
    missing_vars [("PGDATABASE", "skymentor"), ("PGPASSWORD", "secret")] = ["PGUSER"] ∧
    DatabaseSetup_init [("PGDATABASE", "skymentor"), ("PGPASSWORD", "secret")] =
      .exited 1 "Error: Missing required environment variables: PGUSER" := by
  refine ⟨by decide, by decide, ?_⟩
  exact (missing_env_exits_before_connect
      [("PGDATABASE", "skymentor"), ("PGPASSWORD", "secret")]
      (by decide) (by decide)).1.trans (by decide)

/-! ## C8: failure handling and connection release in `run_setup` -/

/-- Running a concatenation of steps runs the first list, then the second
from the resulting state. -/
theorem runStepsE_append (l1 l2 : List SetupStep) (s : DBState) :
    runStepsE s (l1 ++ l2) =
      match runStepsE s l1 with
      | .error e => .error e
      | .ok s1 => runStepsE s1 l2 := by
  induction l1 generalizing s with
  | nil => rfl
  | cons f rest ih =>
    cases hf : f s with
    | error e => simp [runStepsE, hf]
    | ok s' => simp [runStepsE, hf, ih]

/-- `disconnect` never raises: its effect is `disconnectPure`. -/
theorem disconnect_eq_pure (c : ConnState) :
    disconnect c = .ok (disconnectPure c) := by
  obtain ⟨cu, cn⟩ := c
  cases cu <;> cases cn <;> rfl

/-- C8: on every exit path of `run_setup` (connect refused, a step raising,
or success) the final cleanup leaves no open cursor or connection; and when
a step raises after a successful prefix, the steps after it are not
executed (the run equals the run truncated at the failing step), the exit
code is 1, and the failure marker naming the exception is printed. -/
theorem run_setup_failure_handling :
    (∀ (connectOk : Bool) (steps : List SetupStep) (s : DBState),
      (run_setup connectOk steps s).conn.released = true) ∧
    ∀ (pre post : List SetupStep) (f : SetupStep) (s s1 : DBState) (e : String),
      runStepsE s pre = .ok s1 → f s1 = .error e →
      run_setup true (pre ++ f :: post) s = run_setup true (pre ++ [f]) s ∧
      (run_setup true (pre ++ f :: post) s).exitCode = 1 ∧
      ("❌ Setup failed: " ++ e) ∈ (run_setup true (pre ++ f :: post) s).output := by
  constructor
  · intro connectOk steps s
    cases connectOk with
    | false => rfl
    | true =>
      cases h : runStepsE s steps with
      | error e =>
        obtain ⟨e1, e2⟩ := e
        simp [run_setup, h, disconnectPure, ConnState.released, pyTruthy]
      | ok s' => simp [run_setup, h, disconnectPure, ConnState.released, pyTruthy]
  · intro pre post f s s1 e hpre hf
    have hrun : runStepsE s (pre ++ f :: post) = .error (e, s1) := by
      rw [runStepsE_append, hpre]
      simp [runStepsE, hf]
    have hrun1 : runStepsE s (pre ++ [f]) = .error (e, s1) := by
      rw [runStepsE_append, hpre]
      simp [runStepsE, hf]
    refine ⟨?_, ?_, ?_⟩
    · simp [run_setup, hrun, hrun1]
    · simp [run_setup, hrun]
    · simp [run_setup, hrun]

/-- Witness for C8: a concrete failing step after an empty prefix, followed
by a step that would succeed but must not run. -/
theorem run_setup_failure_witness :
    run_setup true ([] ++ (fun _ => Except.error "boom") ::
        [fun st => Except.ok st]) DBState.empty =
      run_setup true ([] ++ [fun _ => Except.error "boom"]) DBState.empty ∧
    (run_setup true ([] ++ (fun _ => Except.error "boom") ::
        [fun st => Except.ok st]) DBState.empty).exitCode = 1 ∧
    ("❌ Setup failed: " ++ "boom") ∈
      (run_setup true ([] ++ (fun _ => Except.error "boom") ::
        [fun st => Except.ok st]) DBState.empty).output :=
  run_setup_failure_handling.2 [] [fun st => Except.ok st]
    (fun _ => Except.error "boom") DBState.empty DBState.empty "boom" rfl rfl

/-! ## C9: declining the destructive-reset confirmation -/

/-- C9: with `--drop-existing` given, any operator response other than an
affirmative `yes` (case-insensitive) makes `main` return `Setup cancelled`
before `DatabaseSetup` is even constructed: no statement runs and the
pre-existing database state is returned untouched. -/
theorem decline_confirm_leaves_state (response : String) (env : Env)
    (connectOk : Bool) (uuids : Nat → String) (db : DBState)
    (h : pyLower response ≠ "yes") :
    main true response env connectOk uuids db = .cancelled db := by
  have hb : (pyLower response != "yes") = true := bne_iff_ne.mpr h
  simp [main, hb]

/-- Witness for C9: declining with `no` over a populated database leaves it
exactly as it was. -/
theorem decline_confirm_witness :
    main true "no" [("PGDATABASE", "d"), ("PGUSER", "u"), ("PGPASSWORD", "p")]
      true (fun k => toString k)
      { enums := [("role", ["mentor"])],
        tables := [("users", [[("name", Value.s "keep")]])], indexes := [] } =
      .cancelled
        { enums := [("role", ["mentor"])],
          tables := [("users", [[("name", Value.s "keep")]])], indexes := [] } :=
  decline_confirm_leaves_state "no" _ _ _ _ (by decide)

/-! ## C10: `disconnect` before any connection -/

/-- C10: `disconnect` on a never-connected instance (both attributes still
`None`, as `__init__` leaves them) changes nothing and raises no error; more
generally it raises no error from any attribute state, so the final cleanup
step is safe on every exit path including pre-connection failures. -/
theorem disconnect_safe_unconnected :
    disconnect { cursor := none, conn := none } =
      .ok { cursor := none, conn := none } ∧
    ∀ c : ConnState, ∃ c' : ConnState, disconnect c = .ok c' := by
  refine ⟨rfl, ?_⟩
  intro c
  obtain ⟨cu, cn⟩ := c
  cases cu <;> cases cn <;> exact ⟨_, rfl⟩

/-- Witness for C10 at a fully connected attribute state. -/
theorem disconnect_safe_witness :
    ∃ c', disconnect { cursor := some true, conn := some true } = .ok c' :=
  disconnect_safe_unconnected.2 _

end SkyDive
